import Mathlib

/-!
Verification of the gemini-live-to-openai-adapter repository.

The definitions below are a shallow embedding of the JavaScript sources
(`src/utils.js`, `src/handlers.js`, `src/server.js`).  JavaScript strings are
modelled as `String` (lists of characters), JS `Number.parseInt` results as
`Option Int` (`none` models `NaN`), thrown exceptions as `Except.error`, and
BigInt as `Int` / `Nat` with explicit modular reductions where 32-bit
semantics matter.
-/

deriving instance DecidableEq for Except

namespace Adapter

/-! ### JavaScript string primitives -/

/-- Whitespace characters recognised by JS `String.prototype.trim` and
the `\s` regex class (ASCII subset; the sources never receive the exotic
Unicode spaces). -/
def jsWhitespace : List Char := [' ', '\t', '\n', '\r', '\x0b', '\x0c']

def isJsSpace (c : Char) : Bool := jsWhitespace.contains c

def dropLeadingSpaces : List Char → List Char
  | [] => []
  | c :: cs => if isJsSpace c then dropLeadingSpaces cs else c :: cs

/-- Model of `String.prototype.trim`. -/
def jsTrim (s : String) : String :=
  ⟨(dropLeadingSpaces (dropLeadingSpaces s.data).reverse).reverse⟩

def splitCharAux (sep : Char) : List Char → List Char → List (List Char)
  | [], acc => [acc.reverse]
  | c :: cs, acc =>
    if c = sep then acc.reverse :: splitCharAux sep cs []
    else splitCharAux sep cs (c :: acc)

/-- Model of JS `s.split(sep)` for a one-character separator: the result is
never empty, and empty fields are kept (`"".split('.') = [""]`). -/
def jsSplitChar (sep : Char) (s : String) : List String :=
  (splitCharAux sep s.data []).map (fun l => (⟨l⟩ : String))

def splitColonColonAux : List Char → List Char → List (List Char)
  | [], acc => [acc.reverse]
  | ':' :: ':' :: cs, acc => acc.reverse :: splitColonColonAux cs []
  | c :: cs, acc => splitColonColonAux cs (c :: acc)

/-- Model of JS `s.split('::')` (non-overlapping, left to right). -/
def jsSplitColonColon (s : String) : List String :=
  (splitColonColonAux s.data []).map (fun l => (⟨l⟩ : String))

def hasColonColon : List Char → Bool
  | ':' :: ':' :: _ => true
  | _ :: cs => hasColonColon cs
  | [] => false

/-- Model of JS `s.includes(c)` for a single character. -/
def jsIncludesChar (c : Char) (s : String) : Bool := s.data.contains c

def digitVal (c : Char) : Option Nat :=
  if '0' ≤ c ∧ c ≤ '9' then some (c.toNat - '0'.toNat) else none

def hexDigitVal (c : Char) : Option Nat :=
  if '0' ≤ c ∧ c ≤ '9' then some (c.toNat - '0'.toNat)
  else if 'a' ≤ c ∧ c ≤ 'f' then some (c.toNat - 'a'.toNat + 10)
  else if 'A' ≤ c ∧ c ≤ 'F' then some (c.toNat - 'A'.toNat + 10)
  else none

def takeDigits (digit : Char → Option Nat) : List Char → List Nat
  | [] => []
  | c :: cs =>
    match digit c with
    | some d => d :: takeDigits digit cs
    | none => []

def digitsToNat (base : Nat) (ds : List Nat) : Nat :=
  ds.foldl (fun a d => a * base + d) 0

/-- Model of JS `Number.parseInt(s, base)`: skip leading whitespace, read an
optional sign, then the longest prefix of digits of the base; trailing
characters are ignored.  `none` models `NaN` (no digits at all). -/
def jsParseInt (digit : Char → Option Nat) (base : Nat) (s : String) : Option Int :=
  let l := dropLeadingSpaces s.data
  let signAndRest : Int × List Char :=
    match l with
    | '-' :: cs => (-1, cs)
    | '+' :: cs => (1, cs)
    | cs => (1, cs)
  match takeDigits digit signAndRest.2 with
  | [] => none
  | ds => some (signAndRest.1 * (digitsToNat base ds : Int))

def jsParseIntDec (s : String) : Option Int := jsParseInt digitVal 10 s

def jsParseIntHex (s : String) : Option Int := jsParseInt hexDigitVal 16 s

def digitChar : Nat → Char
  | 0 => '0' | 1 => '1' | 2 => '2' | 3 => '3' | 4 => '4'
  | 5 => '5' | 6 => '6' | 7 => '7' | 8 => '8' | _ => '9'

def natToStrAux : Nat → Nat → List Char
  | 0, _ => []
  | fuel + 1, n =>
    if n < 10 then [digitChar n] else natToStrAux fuel (n / 10) ++ [digitChar (n % 10)]

def natToStr (n : Nat) : String := ⟨natToStrAux (n + 1) n⟩

/-- Model of JS `Number.prototype.toString()` for integral values, as used on
`Number.parseInt` results in `isValidIPv4`. -/
def jsNumToString : Int → String
  | .ofNat n => natToStr n
  | .negSucc n => "-" ++ natToStr (n + 1)

/-- Model of JS `a || b` for a possibly missing / empty string `a`. -/
def jsOr (a : Option String) (b : String) : String :=
  match a with
  | some s => if s == "" then b else s
  | none => b

def joinColon : List String → String
  | [] => ""
  | [s] => s
  | s :: rest => s ++ ":" ++ joinColon rest

/-! ### BigInt primitives

JS BigInts are arbitrary-precision integers; `~x` is `-x-1` and the bitwise
operations act on the infinite two's-complement representations. -/

/-- BigInt `~x`. -/
def bigNot (x : Int) : Int := -x - 1

/-- BigInt `&`, by cases on the two's-complement signs: for `a, b ≥ 0`,
`a & ~b` keeps exactly the bits of `a` that are not in `b`, i.e.
`a - (a & b)`. -/
def bigLand : Int → Int → Int
  | .ofNat a, .ofNat b => .ofNat (Nat.land a b)
  | .ofNat a, .negSucc b => .ofNat (a - Nat.land a b)
  | .negSucc a, .ofNat b => .ofNat (b - Nat.land b a)
  | .negSucc a, .negSucc b => .negSucc (Nat.lor a b)

/-! ### `src/utils.js` — IP validation and CIDR matching -/

/-- Model of `isValidIPv4` (src/utils.js): four fields, each parsing to a
number in 0–255 whose canonical decimal form is the field itself. -/
def isValidIPv4 (ip : String) : Bool :=
  let octets := jsSplitChar '.' ip
  octets.length == 4 && octets.all (fun o =>
    match jsParseIntDec o with
    | none => false
    | some num => decide (0 ≤ num) && decide (num ≤ 255) && o == jsNumToString num)

/-- Model of `normalizeIPv6` (src/utils.js).  `new Array(missing)` throws a
`RangeError` when `missing` is negative, hence the `Except`. -/
def normalizeIPv6 (ip : String) : Except String String :=
  if !hasColonColon ip.data then .ok ip
  else
    let parts := jsSplitColonColon ip
    let p0 := parts.headD ""
    let p1 := parts.getD 1 ""
    let left := if p0 == "" then [] else (jsSplitChar ':' p0).filter (fun p => p != "")
    let right := if p1 == "" then [] else (jsSplitChar ':' p1).filter (fun p => p != "")
    let missing : Int := 8 - left.length - right.length
    if missing < 0 then .error "RangeError: Invalid array length"
    else .ok (joinColon (left ++ List.replicate missing.toNat "0" ++ right))

def isHexGroup (p : String) : Bool :=
  decide (1 ≤ p.data.length) && decide (p.data.length ≤ 4) &&
    p.data.all (fun c => (hexDigitVal c).isSome)

/-- Model of `isValidIPv6` (src/utils.js): after `::` expansion, exactly 8
groups of 1–4 hex digits. -/
def isValidIPv6 (ip : String) : Except String Bool :=
  match normalizeIPv6 ip with
  | .error e => .error e
  | .ok normalized =>
    let parts := jsSplitChar ':' normalized
    .ok (parts.length == 8 && parts.all isHexGroup)

/-- Model of `ipv6ToBigInt` (src/utils.js).  `BigInt(Number.parseInt(part, 16))`
throws a `RangeError` when the part has no hex digit (`NaN`); at its call
sites the parts are validated 1–4 hex digit groups, so the parsed value lies
in `[0, 2^16)` and `(result << 16n) | BigInt(v)` is `result <<< 16 ||| v`. -/
def ipv6ToBigInt (ip : String) : Except String Nat :=
  match normalizeIPv6 ip with
  | .error e => .error e
  | .ok normalized =>
    (jsSplitChar ':' normalized).foldlM (fun result part =>
      match jsParseIntHex part with
      | none => .error "RangeError: The number NaN cannot be converted to a BigInt"
      | some v => .ok (Nat.lor (result <<< 16) v.toNat)) 0

/-- Model of the inner `ipToInt` closure of `isIPInCIDR`: fold the dot fields
through 32-bit shifts, with the final `>>> 0` reducing modulo `2^32`.  It is
only applied to strings accepted by `isValidIPv4`, whose fields parse. -/
def ipToInt (s : String) : Nat :=
  (jsSplitChar '.' s).foldl
    (fun acc o => ((acc <<< 8) + ((jsParseIntDec o).getD 0).toNat) % 4294967296) 0

/-- Model of `isIPInCIDR` (src/utils.js).  `.error` models a thrown
exception escaping the function.  Two JS subtleties are embedded faithfully:
comparisons against `NaN` (`none`) are false, so an unparseable prefix passes
the range guards; and the 32-bit `<<` takes its right operand modulo 32
(`ToUint32(NaN) = 0`), so an IPv4 `/0` mask is `0xFFFFFFFF`, not `0`. -/
def isIPInCIDR (ip cidr : String) : Except String Bool :=
  if !jsIncludesChar '/' cidr then .ok false
  else
    let parts := jsSplitChar '/' cidr
    let networkStr := parts.headD ""
    let prefixStr := parts.getD 1 ""
    let pfx := jsParseIntDec prefixStr
    let isV6 := jsIncludesChar ':' ip || jsIncludesChar ':' networkStr
    if isV6 then
      match isValidIPv6 ip with
      | .error e => .error e
      | .ok false => .ok false
      | .ok true =>
        match isValidIPv6 networkStr with
        | .error e => .error e
        | .ok false => .ok false
        | .ok true =>
          if (match pfx with
              | none => false
              | some p => decide (p < 0) || decide (p > 128)) then .ok false
          else
            match ipv6ToBigInt networkStr with
            | .error e => .error e
            | .ok network =>
              match ipv6ToBigInt ip with
              | .error e => .error e
              | .ok ipNum =>
                match pfx with
                | none => .error "RangeError: The number NaN cannot be converted to a BigInt"
                | some p =>
                  let mask : Int := bigNot (((1 <<< (128 - p).toNat : Nat) : Int) - 1)
                  .ok (decide (bigLand (ipNum : Int) mask = bigLand (network : Int) mask))
    else
      if !isValidIPv4 ip then .ok false
      else if !isValidIPv4 networkStr then .ok false
      else
        if (match pfx with
            | none => false
            | some p => decide (p < 0) || decide (p > 32)) then .ok false
        else
          let network := ipToInt networkStr
          let ipNum := ipToInt ip
          let shamt : Nat :=
            match pfx with
            | none => 0
            | some p => (32 - p).toNat % 32
          let mask : Nat := (4294967295 <<< shamt) % 4294967296
          .ok (decide (Nat.land ipNum mask = Nat.land network mask))

/-! ### `src/utils.js` — client IP resolution -/

/-- The two forwarding headers read by `getRealClientIP`; `none` models an
absent header. -/
structure Headers where
  forwarded : Option String := none
  xForwardedFor : Option String := none
  deriving DecidableEq

/-- The request data consumed by the middleware: `req.ip`,
`req.connection.remoteAddress` and the headers. -/
structure Request where
  ip : Option String := none
  remoteAddress : String := ""
  headers : Headers := {}
  deriving DecidableEq

def isForbiddenTokenChar (c : Char) : Bool := c == ';' || c == ',' || isJsSpace c

def takeTokenChars : List Char → List Char
  | [] => []
  | c :: cs => if isForbiddenTokenChar c then [] else c :: takeTokenChars cs

/-- Attempt of the regex `/for=([^;,\s]+)/u` at one position: the literal
`for=` followed by at least one character outside `;`, `,` and whitespace;
the capture is greedy. -/
def forTokenAt : List Char → Option (List Char)
  | 'f' :: 'o' :: 'r' :: '=' :: rest =>
    match takeTokenChars rest with
    | [] => none
    | tok => some tok
  | _ => none

/-- Model of `s.match(/for=([^;,\s]+)/u)`: try the pattern at each position,
left to right, and return the first capture. -/
def matchForToken : List Char → Option String
  | [] => none
  | c :: cs =>
    match forTokenAt (c :: cs) with
    | some tok => some ⟨tok⟩
    | none => matchForToken cs

def dropLeadChar (c : Char) (l : List Char) : List Char :=
  match l with
  | x :: xs => if x = c then xs else x :: xs
  | [] => []

def dropTailChar (c : Char) (l : List Char) : List Char :=
  (dropLeadChar c l.reverse).reverse

/-- Model of `.replaceAll(/^\[|\]$/g, '').replaceAll(/(^"|"$)/g, '')`: strip
one surrounding pair of IPv6 brackets, then one surrounding pair of double
quotes. -/
def stripBracketsAndQuotes (s : String) : String :=
  let b := dropTailChar ']' (dropLeadChar '[' s.data)
  ⟨dropTailChar '\"' (dropLeadChar '\"' b)⟩

/-- Model of `getRealClientIP` (src/utils.js).  With reverse-proxy mode off,
or an untrusted immediate peer, the transport peer `req.ip ||
req.connection.remoteAddress` is returned; otherwise the `Forwarded` header's
`for=` token is preferred, then the first `X-Forwarded-For` entry, then the
peer. -/
def getRealClientIP (reverseProxyMode : Bool) (trustedProxyIps : List String)
    (req : Request) : String :=
  if !reverseProxyMode then jsOr req.ip req.remoteAddress
  else
    let immediateProxyIP := jsOr req.ip req.remoteAddress
    if !(trustedProxyIps.contains immediateProxyIP) then immediateProxyIP
    else
      let fromForwarded : Option String :=
        match req.headers.forwarded with
        | none => none
        | some fwd =>
          if fwd == "" then none
          else
            match (jsSplitChar ';' fwd).find? (fun part => (jsTrim part).data.take 4 == ['f', 'o', 'r', '=']) with
            | none => none
            | some part => (matchForToken (jsTrim part).data).map stripBracketsAndQuotes
      match fromForwarded with
      | some tok => tok
      | none =>
        match req.headers.xForwardedFor with
        | none => immediateProxyIP
        | some xff =>
          if xff == "" then immediateProxyIP
          else stripBracketsAndQuotes (jsTrim ((jsSplitChar ',' xff).headD ""))

/-! ### `src/utils.js` — IP restriction middleware and `src/server.js` -/

/-- Outcome of the middleware: `next` invokes the downstream handler, `deny`
responds without invoking it. -/
inductive GateResult where
  | next
  | deny (status : Nat) (errorType : String) (message : String)
  deriving DecidableEq

/-- The `for (const allowed of ALLOWED_IPS)` loop of
`ipRestrictionMiddleware`: first rule deciding `true` wins, an exception
propagates. -/
def findCidrMatch (clientIP : String) : List String → Except String Bool
  | [] => .ok false
  | allowed :: rest =>
    match isIPInCIDR clientIP allowed with
    | .error e => .error e
    | .ok true => .ok true
    | .ok false => findCidrMatch clientIP rest

/-- Model of `ipRestrictionMiddleware` (src/utils.js); `.error` models an
exception escaping the middleware (neither `next()` nor the 403 response). -/
def ipRestrictionMiddleware (allowedIps : List String) (reverseProxyMode : Bool)
    (trustedProxyIps : List String) (req : Request) : Except String GateResult :=
  if allowedIps.length == 0 then .ok .next
  else
    let clientIP := getRealClientIP reverseProxyMode trustedProxyIps req
    if allowedIps.contains clientIP then .ok .next
    else
      match findCidrMatch clientIP allowedIps with
      | .error e => .error e
      | .ok true => .ok .next
      | .ok false => .ok (.deny 403 "access_denied" "Access denied: IP not allowed")

/-- The middleware stages of src/server.js, in mount order:
`app.use(helmet())`, `app.use(cors())`, `app.use(express.json())`,
`app.use(ipRestrictionMiddleware)`, then the `/v1/chat/completions` route
handler.  Request validation runs inside the route handler, and backend
sessions are opened only there. -/
inductive Stage where
  | helmet
  | cors
  | bodyParse
  | ipGate
  | chatHandler
  deriving DecidableEq

/-- Model of the src/server.js pipeline: each stage runs in mount order and
the trace records the stages that execute.  `helmet`, `cors` and
`express.json` always call `next()`; the gate decides whether the route
handler runs. -/
def runPipeline (allowedIps : List String) (reverseProxyMode : Bool)
    (trustedProxyIps : List String) (req : Request) :
    List Stage × Except String GateResult :=
  match ipRestrictionMiddleware allowedIps reverseProxyMode trustedProxyIps req with
  | .ok .next =>
    ([Stage.helmet, Stage.cors, Stage.bodyParse, Stage.ipGate, Stage.chatHandler], .ok .next)
  | r => ([Stage.helmet, Stage.cors, Stage.bodyParse, Stage.ipGate], r)

/-! ### `src/utils.js` / `src/handlers.js` — message conversion -/

/-- An OpenAI chat message. -/
structure ChatMessage where
  role : String
  content : String
  deriving DecidableEq

/-- A Live API turn: `{role, parts: [{text}]}`. -/
structure Turn where
  role : String
  parts : List String
  deriving DecidableEq

/-- Model of `convertToLiveAPITurns` (src/utils.js). -/
def convertToLiveAPITurns (messages : List ChatMessage) : List Turn :=
  messages.map (fun msg =>
    ⟨if msg.role == "assistant" then "model" else msg.role, [msg.content]⟩)

/-- The argument of `session.sendClientContent` in `handleChatCompletions`. -/
structure SentClientContent where
  turns : Turn
  turnComplete : Bool
  deriving DecidableEq

/-- Model of the transmission step of `handleChatCompletions`
(src/handlers.js): `turns.at(-1)` — `none` on an empty array — sent with
`turnComplete: true`. -/
def sentClientContent (messages : List ChatMessage) : Option SentClientContent :=
  (convertToLiveAPITurns messages).getLast?.map (fun t => ⟨t, true⟩)

/-! ### `src/handlers.js` — the Live session bridge -/

/-- A backend message event: `message.text` (possibly absent or empty) and
`message.serverContent?.turnComplete`. -/
structure LiveMessage where
  text : Option String := none
  turnComplete : Bool := false
  deriving DecidableEq

/-- The ordered backend events of one session, as delivered to the
`onmessage`, `onerror` and `onclose` callbacks of `createLiveSession`. -/
inductive LiveEvent where
  | message (m : LiveMessage)
  | error (msg : String)
  | close (reason : String)
  deriving DecidableEq

/-- One frame written onto the HTTP response stream. -/
inductive OutFrame where
  /-- a `data: <chunk JSON>` frame from `sendStreamChunk` or
  `sendFinalStreamChunk`: delta content and finish reason (the wall-clock
  `id`/`created` fields are abstracted away) -/
  | chunk (delta : Option String) (finishReason : Option String)
  /-- the literal `data: [DONE]` line -/
  | doneSentinel
  /-- `res.end()` -/
  | endStream
  deriving DecidableEq

/-- JS truthiness of `message.text`: `undefined` and `""` are falsy. -/
def textTruthy : Option String → Bool
  | none => false
  | some t => t != ""

/-- Settlement of the response promise: `resolveOk` from
`responseResolver(fullResponse)`, `rejected` from `responseRejecter`. -/
inductive Settled where
  | resolveOk (content : String)
  | rejected (msg : String)
  deriving DecidableEq

/-- The mutable state of one `createLiveSession` call together with its
optional `createStreamingHandler`: the session's `fullResponse` and
`isComplete`, the promise settlement (`none` while pending), the handler's
own `fullResponse` accumulator, and the frames written to the response. -/
structure LiveState where
  fullResponse : String := ""
  isComplete : Bool := false
  settled : Option Settled := none
  handlerBuf : String := ""
  out : List OutFrame := []
  deriving DecidableEq

/-- A JS promise settles only once: later resolutions and rejections are
ignored. -/
def settleOnce (st : Option Settled) (v : Settled) : Option Settled :=
  match st with
  | some r => some r
  | none => some v

/-- Model of `createStreamingHandler(...).onMessage` (src/handlers.js):
append the text and emit one chunk carrying exactly this delta. -/
def handlerOnMessage (st : LiveState) (m : LiveMessage) : LiveState :=
  if textTruthy m.text then
    { st with handlerBuf := st.handlerBuf ++ m.text.getD ""
            , out := st.out ++ [.chunk m.text none] }
  else st

/-- Model of `createStreamingHandler(...).onComplete` (src/handlers.js):
the terminal empty-delta chunk with finish reason `stop`, the `data: [DONE]`
line, then `res.end()`. -/
def handlerOnComplete (st : LiveState) : LiveState :=
  { st with out := st.out ++ [.chunk none (some "stop"), .doneSentinel, .endStream] }

/-- Model of the `onmessage` / `onerror` / `onclose` callbacks of
`createLiveSession` (src/handlers.js), applied to one backend event;
`streaming` tells whether a `streamHandler` was installed. -/
def processEvent (streaming : Bool) (st : LiveState) : LiveEvent → LiveState
  | .message m =>
    let st1 :=
      if textTruthy m.text then
        let st' := { st with fullResponse := st.fullResponse ++ m.text.getD "" }
        if streaming then handlerOnMessage st' m else st'
      else st
    if m.turnComplete then
      let st2 := { st1 with isComplete := true }
      let st3 := if streaming then handlerOnComplete st2 else st2
      { st3 with settled := settleOnce st3.settled (.resolveOk st3.fullResponse) }
    else st1
  | .error msg =>
    let v := Settled.rejected (if msg == "" then "Live API error" else msg)
    { st with settled := settleOnce st.settled v }
  | .close reason =>
    if !st.isComplete then
      let v := Settled.rejected (if reason == "" then "Connection closed unexpectedly" else reason)
      { st with settled := settleOnce st.settled v }
    else st

/-- Fold of the callbacks over the ordered backend events of one session,
from the initial closure state. -/
def runLive (streaming : Bool) (events : List LiveEvent) : LiveState :=
  events.foldl (processEvent streaming) {}

/-- Model of `formatNonStreamingResponse` (src/handlers.js); the wall-clock
`id` and `created` fields are abstracted away. -/
structure ChatCompletionResponse where
  object : String
  model : String
  messageRole : String
  messageContent : String
  finishReason : String
  promptTokens : Int
  completionTokens : Int
  totalTokens : Int
  deriving DecidableEq

def formatNonStreamingResponse (content : String) (model : String) :
    ChatCompletionResponse :=
  { object := "chat.completion", model := model, messageRole := "assistant",
    messageContent := content, finishReason := "stop",
    promptTokens := -1, completionTokens := -1, totalTokens := -1 }

/-- Observable outcome of one `handleChatCompletions` execution (from the
point where authentication and validation succeeded and the session opened). -/
structure HandlerRun where
  sessionOpened : Bool
  sessionClosed : Bool
  frames : List OutFrame
  jsonStatus : Option Nat
  jsonBody : Option ChatCompletionResponse
  errorType : Option String
  uncaught : Option String
  deriving DecidableEq

/-- Model of `handleChatCompletions` (src/handlers.js) after a successful
session open, driven by the ordered backend events; `none` models a handler
suspended forever on a pending promise (no timeout exists).

On rejection the handler's `catch` block runs.  `res.headersSent` is true
only once a first `res.write` flushed the streaming headers, hence
`stream && frames ≠ []`.  Inside the `catch` block the identifier `stream`
is not in scope — it is a `const` declared inside the `try` block — so the
`else if (stream)` branch throws a `ReferenceError` instead of writing the
in-band error frame; `uncaught` records that exception escaping the handler.
`session.close()` is reached only on the success path. -/
def runChatHandler (stream : Bool) (model : String) (events : List LiveEvent) :
    Option HandlerRun :=
  let fin := runLive stream events
  match fin.settled with
  | none => none
  | some (.resolveOk content) =>
    some { sessionOpened := true, sessionClosed := true, frames := fin.out,
           jsonStatus := if stream then none else some 200,
           jsonBody := if stream then none
                       else some (formatNonStreamingResponse content model),
           errorType := none, uncaught := none }
  | some (.rejected _msg) =>
    let headersSent := stream && !fin.out.isEmpty
    if !headersSent then
      some { sessionOpened := true, sessionClosed := false, frames := fin.out,
             jsonStatus := some 500, jsonBody := none,
             errorType := some "server_error", uncaught := none }
    else
      some { sessionOpened := true, sessionClosed := false, frames := fin.out,
             jsonStatus := none, jsonBody := none, errorType := none,
             uncaught := some "ReferenceError: stream is not defined" }

/-- Whether the response promise of a session state was resolved (turn
completed), as opposed to rejected or still pending. -/
def settledOk (st : LiveState) : Bool :=
  match st.settled with
  | some (.resolveOk _) => true
  | _ => false

/-- A backend partial-text event. -/
def mkTextEvent (t : String) : LiveEvent := .message ⟨some t, false⟩

/-- The backend turn-completion event. -/
def turnCompleteEvent : LiveEvent := .message ⟨none, true⟩

/-- Concatenation of the partial texts in arrival order, as accumulated by
`fullResponse += message.text`. -/
def concatTexts (l : List String) : String := l.foldl (fun a b => a ++ b) ""

/-- The stream chunk emitted for one partial-text event. -/
def chunkOf (t : String) : OutFrame := .chunk (some t) none

/-! ### Helper lemmas -/

lemma findCidrMatch_all_false (ip : String) :
    ∀ l : List String, findCidrMatch ip l = .ok false →
      ∀ a ∈ l, isIPInCIDR ip a = .ok false := by
  intro l
  induction l with
  | nil => intro _ a ha; cases ha
  | cons x rest ih =>
    intro hm a ha
    unfold findCidrMatch at hm
    cases hx : isIPInCIDR ip x with
    | error e => rw [hx] at hm; cases hm
    | ok b =>
      cases b with
      | true => rw [hx] at hm; cases hm
      | false =>
        rw [hx] at hm
        rcases List.mem_cons.mp ha with h | h
        · exact h ▸ hx
        · exact ih hm a h

lemma findCidrMatch_exists_true (ip : String) :
    ∀ l : List String, findCidrMatch ip l = .ok true →
      ∃ a ∈ l, isIPInCIDR ip a = .ok true := by
  intro l
  induction l with
  | nil => intro hm; cases hm
  | cons x rest ih =>
    intro hm
    unfold findCidrMatch at hm
    cases hx : isIPInCIDR ip x with
    | error e => rw [hx] at hm; cases hm
    | ok b =>
      cases b with
      | true => exact ⟨x, List.mem_cons_self x rest, hx⟩
      | false =>
        rw [hx] at hm
        obtain ⟨a, ha, hia⟩ := ih hm
        exact ⟨a, List.mem_cons_of_mem x ha, hia⟩

lemma foldl_textEvents (streaming : Bool) (texts : List String)
    (h : ∀ t ∈ texts, t ≠ "") (buf hbuf : String) (out : List OutFrame) :
    List.foldl (processEvent streaming) ⟨buf, false, none, hbuf, out⟩
        (texts.map mkTextEvent) =
      ⟨List.foldl (fun a b => a ++ b) buf texts, false, none,
       if streaming then List.foldl (fun a b => a ++ b) hbuf texts else hbuf,
       out ++ if streaming then texts.map chunkOf else []⟩ := by
  induction texts generalizing buf hbuf out with
  | nil => cases streaming <;> simp
  | cons t rest ih =>
    have ht : textTruthy (some t) = true := by
      simp [textTruthy]
      exact h t (List.mem_cons_self t rest)
    have hrest : ∀ x ∈ rest, x ≠ "" := fun x hx => h x (List.mem_cons_of_mem t hx)
    cases streaming with
    | false =>
      simp only [List.map_cons, List.foldl_cons]
      have hstep : processEvent false ⟨buf, false, none, hbuf, out⟩ (mkTextEvent t) =
          ⟨buf ++ t, false, none, hbuf, out⟩ := by
        simp [processEvent, mkTextEvent, ht]
      rw [hstep, ih hrest]
      simp
    | true =>
      simp only [List.map_cons, List.foldl_cons]
      have hstep : processEvent true ⟨buf, false, none, hbuf, out⟩ (mkTextEvent t) =
          ⟨buf ++ t, false, none, hbuf ++ t, out ++ [chunkOf t]⟩ := by
        simp [processEvent, mkTextEvent, handlerOnMessage, ht, chunkOf]
      rw [hstep, ih hrest]
      simp

/-! ### The claims -/

/-- C1: for a backend session delivering ordered partial-text events followed
by a turn-completion event, the bridge renders exactly one response for the
requested mode.  Non-streaming: a single JSON completion whose message
content is the concatenation of the partial texts in arrival order, finish
reason `stop`, and no stream frames.  Streaming: one chunk per partial event
carrying exactly that event's text as the delta, in backend order, then a
terminal empty-delta chunk with finish reason `stop`, then the `data: [DONE]`
sentinel, then the response ends. -/
theorem c1_bridge_response_frames (model : String) (texts : List String)
    (h : ∀ t ∈ texts, t ≠ "") :
    runChatHandler false model (texts.map mkTextEvent ++ [turnCompleteEvent]) =
      some ⟨true, true, [], some 200,
        some (formatNonStreamingResponse (concatTexts texts) model), none, none⟩ ∧
    runChatHandler true model (texts.map mkTextEvent ++ [turnCompleteEvent]) =
      some ⟨true, true,
        texts.map chunkOf ++ [.chunk none (some "stop"), .doneSentinel, .endStream],
        none, none, none, none⟩ := by
  constructor
  · simp only [runChatHandler, runLive, List.foldl_append]
    rw [foldl_textEvents false texts h "" "" []]
    simp [processEvent, turnCompleteEvent, textTruthy, settleOnce, concatTexts]
  · simp only [runChatHandler, runLive, List.foldl_append]
    rw [foldl_textEvents true texts h "" "" []]
    simp [processEvent, turnCompleteEvent, textTruthy, settleOnce,
      handlerOnComplete, concatTexts]

/-- C1 witness: partial events "Hel" and "lo" then completion, in both
modes. -/
theorem c1_bridge_response_frames_witness :
    runChatHandler false "gemini-live-2.5-flash-preview"
        [mkTextEvent "Hel", mkTextEvent "lo", turnCompleteEvent] =
      some ⟨true, true, [], some 200,
        some (formatNonStreamingResponse "Hello" "gemini-live-2.5-flash-preview"),
        none, none⟩ ∧
    runChatHandler true "gemini-live-2.5-flash-preview"
        [mkTextEvent "Hel", mkTextEvent "lo", turnCompleteEvent] =
      some ⟨true, true,
        [chunkOf "Hel", chunkOf "lo", .chunk none (some "stop"), .doneSentinel,
         .endStream], none, none, none, none⟩ := by
  have hc := c1_bridge_response_frames "gemini-live-2.5-flash-preview"
      ["Hel", "lo"] (by decide)
  revert hc; decide

/-- C2 (code bug): the claim requires IPv4 prefix 0 to match every valid
address, but the JS 32-bit `<<` takes its shift count modulo 32, so the `/0`
mask is `0xFFFFFFFF` instead of `0` and `isIPInCIDR "1.2.3.4" "0.0.0.0/0"`
is `false` although both strings are valid; the IPv6 branch (BigInt shifts,
no wrap-around) handles `/0` as the claim states. -/
theorem c2_ipv4_slash_zero_mask :
    isValidIPv4 "1.2.3.4" = true ∧ isValidIPv4 "0.0.0.0" = true ∧
    isIPInCIDR "1.2.3.4" "0.0.0.0/0" = .ok false ∧
    isIPInCIDR "::2" "::/0" = .ok true := by decide

/-- C3 (code bug): `inRange` neither always terminates normally nor returns
`false` on every malformed input.  An unparseable prefix is `NaN`, which
passes both range guards: in the IPv6 branch `BigInt(NaN)` then throws a
`RangeError`, and in the IPv4 branch the shift count becomes `0`, the mask
`0xFFFFFFFF`, and the malformed CIDR `1.2.3.4/abc` *matches* `1.2.3.4`. -/
theorem c3_malformed_cidr_behavior :
    isIPInCIDR "::1" "::1/abc" =
      .error "RangeError: The number NaN cannot be converted to a BigInt" ∧
    isIPInCIDR "1.2.3.4" "1.2.3.4/abc" = .ok true ∧
    isIPInCIDR "1:2:3:4:5:6:7::8:9" "::/0" =
      .error "RangeError: Invalid array length" := by decide

/-- C4: with reverse-proxy mode off, or with the transport peer not a member
of the trusted proxies, the resolved client address equals the transport peer
`req.ip || req.connection.remoteAddress` for any two header contents: the
forwarding headers have no influence. -/
theorem c4_headers_no_influence (rpm : Bool) (trusted : List String)
    (reqIp : Option String) (remote : String) (h1 h2 : Headers)
    (h : rpm = false ∨ trusted.contains (jsOr reqIp remote) = false) :
    getRealClientIP rpm trusted ⟨reqIp, remote, h1⟩ = jsOr reqIp remote ∧
    getRealClientIP rpm trusted ⟨reqIp, remote, h2⟩ = jsOr reqIp remote := by
  rcases h with h | h
  · subst h; exact ⟨rfl, rfl⟩
  · have h' : jsOr reqIp remote ∉ trusted := by simpa using h
    cases rpm
    · exact ⟨rfl, rfl⟩
    · constructor <;> simp [getRealClientIP, h']

/-- C4 witness: reverse-proxy mode on but peer untrusted; two different
header maps resolve to the peer. -/
theorem c4_headers_no_influence_witness :
    getRealClientIP true ["9.9.9.9"]
        ⟨some "1.2.3.4", "", ⟨some "for=6.6.6.6", some "7.7.7.7"⟩⟩ = "1.2.3.4" ∧
    getRealClientIP true ["9.9.9.9"] ⟨some "1.2.3.4", "", ⟨none, none⟩⟩ = "1.2.3.4" := by
  have hc := c4_headers_no_influence true ["9.9.9.9"] (some "1.2.3.4") ""
      ⟨some "for=6.6.6.6", some "7.7.7.7"⟩ ⟨none, none⟩ (Or.inr (by decide))
  revert hc; decide

/-- C5 counterexample: with the configured allow-list `["::1/abc"]` and a
non-matching client `::2`, the middleware neither allows nor responds 403 —
the CIDR check throws (`BigInt(NaN)`), so the claim's "in all remaining cases
it responds with HTTP status 403" is false. -/
theorem c5_gate_counterexample :
    ipRestrictionMiddleware ["::1/abc"] false [] ⟨some "::2", "", {}⟩ =
      .error "RangeError: The number NaN cannot be converted to a BigInt" := by decide

/-- C5 (amended): whenever the middleware returns a verdict (no rule
evaluation throws), it allows exactly when the allow-list is empty, or the
resolved client IP is an exact string match of some rule, or some rule is an
`isIPInCIDR` match; every other verdict is the 403 `access_denied` response,
which does not invoke the downstream handler. -/
theorem c5_gate_amended (allowedIps : List String) (rpm : Bool)
    (trusted : List String) (req : Request) (g : GateResult)
    (hg : ipRestrictionMiddleware allowedIps rpm trusted req = .ok g) :
    (g = .next ↔ allowedIps = [] ∨
      allowedIps.contains (getRealClientIP rpm trusted req) = true ∨
      ∃ a ∈ allowedIps, isIPInCIDR (getRealClientIP rpm trusted req) a = .ok true) ∧
    (g ≠ .next → g = .deny 403 "access_denied" "Access denied: IP not allowed") := by
  unfold ipRestrictionMiddleware at hg
  by_cases hlen : allowedIps.length == 0
  · rw [if_pos hlen] at hg
    injection hg with hg
    subst hg
    have : allowedIps = [] := by
      simpa using List.length_eq_zero.mp (by simpa using hlen)
    simp [this]
  · rw [if_neg hlen] at hg
    by_cases hmem : allowedIps.contains (getRealClientIP rpm trusted req)
    · rw [if_pos hmem] at hg
      injection hg with hg
      subst hg
      exact ⟨⟨fun _ => Or.inr (Or.inl hmem), fun _ => rfl⟩, fun hne => absurd rfl hne⟩
    · rw [if_neg hmem] at hg
      cases hm : findCidrMatch (getRealClientIP rpm trusted req) allowedIps with
      | error e => rw [hm] at hg; cases hg
      | ok b =>
        rw [hm] at hg
        cases b with
        | true =>
          injection hg with hg
          subst hg
          exact ⟨by simp [findCidrMatch_exists_true _ _ hm], by simp⟩
        | false =>
          injection hg with hg
          subst hg
          constructor
          · constructor
            · intro hfalse; cases hfalse
            · rintro (hnil | hc | ⟨a, ha, hia⟩)
              · subst hnil; simp at hlen
              · exact absurd hc (by simpa using hmem)
              · have := findCidrMatch_all_false _ _ hm a ha
                rw [this] at hia
                cases hia
          · intro _; rfl

/-- C5 witness: `ALLOWED_IPS="10.0.0.0/8"` with client `10.1.2.3` yields the
allow verdict, and the amended characterisation holds there. -/
theorem c5_gate_amended_witness :
    (GateResult.next = GateResult.next ↔
      (["10.0.0.0/8"] = ([] : List String) ∨
        List.contains ["10.0.0.0/8"]
          (getRealClientIP false [] ⟨some "10.1.2.3", "", {}⟩) = true ∨
        ∃ a ∈ ["10.0.0.0/8"],
          isIPInCIDR (getRealClientIP false [] ⟨some "10.1.2.3", "", {}⟩) a = .ok true)) ∧
    (GateResult.next ≠ GateResult.next →
      GateResult.next = .deny 403 "access_denied" "Access denied: IP not allowed") := by
  have hc := c5_gate_amended ["10.0.0.0/8"] false [] ⟨some "10.1.2.3", "", {}⟩
      .next (by decide)
  exact hc

/-- C6 (code bug): when the backend rejects before completion, the
non-streaming path responds 500 with `type:"server_error"` as claimed; but on
the streaming path with headers sent, the claimed in-band error frame is
never written and the stream is never ended: the `catch` block's
`else if (stream)` reads a `const` that is scoped to the `try` block, so a
`ReferenceError` escapes instead (here after one delivered chunk). -/
theorem c6_catch_block_paths :
    runChatHandler false "gemini-live-2.5-flash-preview" [.error "backend failure"] =
      some ⟨true, false, [], some 500, none, some "server_error", none⟩ ∧
    runChatHandler true "gemini-live-2.5-flash-preview"
        [mkTextEvent "Hel", .error "backend failure"] =
      some ⟨true, false, [chunkOf "Hel"], none, none, none,
        some "ReferenceError: stream is not defined"⟩ := by decide

/-- C7 counterexample: an execution in which the backend session opened and
the backend errored before completion finishes the handler with the session
still open (`sessionClosed = false`) — the claim that the session is closed
on the failure path is false. -/
theorem c7_session_close_counterexample :
    runChatHandler false "gemini-live-2.5-flash-preview" [.error "boom"] =
      some ⟨true, false, [], some 500, none, some "server_error", none⟩ := by decide

/-- C7 (amended): in every finishing execution with an opened session, the
session is explicitly closed if and only if the response promise resolved
(turn completion); on the failure paths (backend error or unexpected close)
`session.close()` is never reached. -/
theorem c7_session_close_amended (stream : Bool) (model : String)
    (events : List LiveEvent) (run : HandlerRun)
    (hg : runChatHandler stream model events = some run) :
    run.sessionOpened = true ∧
    run.sessionClosed = settledOk (runLive stream events) := by
  simp only [runChatHandler] at hg
  cases hs : (runLive stream events).settled with
  | none => rw [hs] at hg; cases hg
  | some v =>
    cases v with
    | resolveOk c =>
      rw [hs] at hg
      injection hg with hg
      subst hg
      simp [settledOk, hs]
    | rejected m =>
      rw [hs] at hg
      cases hb : stream && !(runLive stream events).out.isEmpty with
      | false =>
        rw [hb] at hg
        injection hg with hg
        subst hg
        simp [settledOk, hs]
      | true =>
        rw [hb] at hg
        injection hg with hg
        subst hg
        simp [settledOk, hs]

/-- C7 witness: a successful streaming run; the session is closed and the
promise resolved. -/
theorem c7_session_close_amended_witness :
    (HandlerRun.sessionOpened ⟨true, true,
        [chunkOf "ok", .chunk none (some "stop"), .doneSentinel, .endStream],
        none, none, none, none⟩ = true) ∧
    (HandlerRun.sessionClosed ⟨true, true,
        [chunkOf "ok", .chunk none (some "stop"), .doneSentinel, .endStream],
        none, none, none, none⟩ =
      settledOk (runLive true [mkTextEvent "ok", turnCompleteEvent])) := by
  have hc := c7_session_close_amended true "m" [mkTextEvent "ok", turnCompleteEvent]
      ⟨true, true, [chunkOf "ok", .chunk none (some "stop"), .doneSentinel, .endStream],
        none, none, none, none⟩ (by decide)
  exact hc

/-- C8 counterexample: on a denied request the executed stage trace is
`[helmet, cors, bodyParse, ipGate]` — the body parser (`express.json()`,
mounted before the gate in src/server.js) executes strictly before the
access-control gate, contradicting the claim that the gate runs before
request-body parsing; the route handler (the only place a backend session
opens) never runs. -/
theorem c8_middleware_order_counterexample :
    runPipeline ["10.0.0.0/8"] false [] ⟨some "11.0.0.1", "", {}⟩ =
      ([.helmet, .cors, .bodyParse, .ipGate],
        .ok (.deny 403 "access_denied" "Access denied: IP not allowed")) ∧
    List.indexOf Stage.bodyParse [.helmet, .cors, .bodyParse, .ipGate] <
      List.indexOf Stage.ipGate [.helmet, .cors, .bodyParse, .ipGate] := by decide

/-- C8 (amended): the gate executes after body parsing (`express.json()` is
mounted first) but before the route handler — hence before request
validation and before any backend session opens — and the route-handler
stage executes exactly when the gate allows: a denied request never opens a
backend session. -/
theorem c8_middleware_order_amended (allowedIps : List String) (rpm : Bool)
    (trusted : List String) (req : Request) :
    (runPipeline allowedIps rpm trusted req).1.take 4 =
      [Stage.helmet, Stage.cors, Stage.bodyParse, Stage.ipGate] ∧
    (Stage.chatHandler ∈ (runPipeline allowedIps rpm trusted req).1 ↔
      ipRestrictionMiddleware allowedIps rpm trusted req = .ok .next) := by
  unfold runPipeline
  cases hm : ipRestrictionMiddleware allowedIps rpm trusted req with
  | error e => simp [hm]
  | ok g =>
    cases g with
    | next => simp [hm]
    | deny s t m => simp [hm]

/-- C9: for a non-empty message sequence, exactly the final message is
transmitted to the backend, marked end-of-turn, with role `assistant` mapped
to the backend's `model` role and every other role passed through
unchanged; earlier messages are never sent. -/
theorem c9_final_message_only (pre : List ChatMessage) (lastMsg : ChatMessage) :
    sentClientContent (pre ++ [lastMsg]) =
      some ⟨⟨if lastMsg.role == "assistant" then "model" else lastMsg.role,
        [lastMsg.content]⟩, true⟩ := by
  simp [sentClientContent, convertToLiveAPITurns]

/-- C10: a backend message event carrying neither a non-empty text field nor
the turn-complete flag leaves the bridge state unchanged: the accumulated
full-response buffers keep their values, no frame is written, and the
completion promise keeps its settlement state. -/
theorem c10_noop_event (streaming : Bool) (st : LiveState) (m : LiveMessage)
    (ht : m.text = none ∨ m.text = some "") (hc : m.turnComplete = false) :
    processEvent streaming st (.message m) = st := by
  rcases m with ⟨t, tc⟩
  simp only at hc
  subst hc
  rcases ht with h | h <;>
    (simp only at h; subst h; simp [processEvent, textTruthy])

/-- C10 witness: an empty-text, non-complete event is a no-op on a concrete
mid-stream state. -/
theorem c10_noop_event_witness :
    processEvent true ⟨"abc", false, none, "a", [chunkOf "x"]⟩
        (.message ⟨some "", false⟩) =
      ⟨"abc", false, none, "a", [chunkOf "x"]⟩ := by
  have hc := c10_noop_event true ⟨"abc", false, none, "a", [chunkOf "x"]⟩
      ⟨some "", false⟩ (Or.inr rfl) rfl
  exact hc

end Adapter

